import Mathlib

/-!
Verification of the volume ownership transfer protocol of the cinder
repository (create / accept / delete of volume transfers, with
authorization-secret gated acceptance and quota movement between
projects), and of the mock key manager used by its test suite.

The transfer manager itself (`cinder/transfer/api.py`) is not among the
given source files; only its unit tests are
(`cinder/tests/unit/test_volume_transfer.py`).  Its behaviour is
therefore modelled from the specification, with the tests fixing the
observable details (notification event names and order, quota call
arguments, error kinds).  The mock key manager is embedded directly from
`cinder/tests/keymgr/mock_key_mgr.py`.
-/

namespace Transfer

/-- An authenticated caller context: `user_id` and `project_id`,
as in `cinder.context.RequestContext`. -/
structure Ctxt where
  user_id : String
  project_id : String
deriving Repr, DecidableEq

/-- Modelled from the spec: a `VolumeRecord` — identifier, status,
owning project id, owning user id, volume-type id and size.  The store
itself (`VolumeStore`) is an external collaborator; we carry the records
in the explicit state below. -/
structure Volume where
  id : Nat
  status : String
  project_id : String
  user_id : String
  volume_type_id : String
  size : Nat
deriving Repr, DecidableEq

/-- Modelled from the spec: a `TransferRecord` — identifier, reference
to a volume by id, display name, and the authorization secret (opaque,
compared exactly). -/
structure Transfer where
  id : Nat
  volume_id : Nat
  display_name : String
  auth_key : String
deriving Repr, DecidableEq

/-- One call to the `QuotaLedger`:
`reserve(project_id, {volumes: dv, gigabytes: dg}, volume_type_id)`.
A release is a reserve with negative deltas, as in the tests. -/
structure QuotaCall where
  project_id : String
  volumes : Int
  gigabytes : Int
  volume_type_id : String
deriving Repr, DecidableEq

/-- The result mapping returned by `create`: transfer id, volume id,
display name and the plaintext secret. -/
structure CreateResult where
  id : Nat
  volume_id : Nat
  display_name : String
  auth_key : String
deriving Repr, DecidableEq

/-- The result mapping returned by `accept`: transfer id and volume id. -/
structure AcceptResult where
  id : Nat
  volume_id : Nat
deriving Repr, DecidableEq

/-- The error kinds of the transfer protocol
(`cinder.exception.TransferNotFound`, `InvalidAuthKey`, `InvalidVolume`,
`VolumeNotFound`). -/
inductive TErr where
  | transferNotFound
  | volumeNotFound
  | invalidAuthKey
  | invalidVolume
deriving Repr, DecidableEq

/-- Modelled from the spec: the world state the transfer manager acts
on — the volume store, the live transfer records, the notification sink
(event names, in emission order) and the quota ledger (as the sequence
of reserve calls made against it).  `counter` feeds fresh transfer ids
and secrets. -/
structure State where
  volumes : List Volume
  transfers : List Transfer
  notifications : List String
  quotaCalls : List QuotaCall
  counter : Nat
deriving Repr, DecidableEq

/-- `VolumeStore.get`: look a volume up by id. -/
def findVolume (s : State) (vid : Nat) : Option Volume :=
  s.volumes.find? (fun v => v.id = vid)

/-- Look a live transfer record up by id (not project-scoped: acceptance
is capability-based). -/
def findTransfer (s : State) (tid : Nat) : Option Transfer :=
  s.transfers.find? (fun t => t.id = tid)

/-- Replace the volume with id `v.id` by `v` in the store. -/
def updateVolume (s : State) (v : Volume) : State :=
  { s with volumes := s.volumes.map (fun w => if w.id = v.id then v else w) }

/-- `NotificationSink.emit`: append an event name. -/
def notify (s : State) (event : String) : State :=
  { s with notifications := s.notifications ++ [event] }

/-- `QuotaLedger.reserve` with `add_volume_type_opts` applied: record
the call. -/
def quotaReserve (s : State) (c : QuotaCall) : State :=
  { s with quotaCalls := s.quotaCalls ++ [c] }

/-- Modelled from the spec: the per-record fresh secret.  The source
generates a cryptographically unpredictable secret; we model freshness
with the state counter (content is opaque, compared exactly). -/
def genAuthKey (n : Nat) : String :=
  "secret-" ++ toString n

/-- Modelled from the spec: `TransferManager.create(ctxt, volume_id,
display_name)` of `cinder/transfer/api.py` (absent from the sources).
The volume must exist, be visible to the caller's project, and be in
status "available"; on success a fresh TransferRecord is persisted, the
volume is flipped to "awaiting-transfer", and a
`transfer.create.start` / `transfer.create.end` pair is emitted. -/
def create (s : State) (ctxt : Ctxt) (vid : Nat) (name : String) :
    Except TErr CreateResult × State :=
  match findVolume s vid with
  | none => (.error .volumeNotFound, s)
  | some v =>
    if v.project_id ≠ ctxt.project_id then (.error .volumeNotFound, s)
    else if v.status ≠ "available" then (.error .invalidVolume, s)
    else
      let tid := s.counter
      let key := genAuthKey s.counter
      let s1 := notify s "transfer.create.start"
      let s2 := updateVolume s1 { v with status := "awaiting-transfer" }
      let s3 := { s2 with
                    transfers := s2.transfers ++ [⟨tid, vid, name, key⟩],
                    counter := s.counter + 1 }
      let s4 := notify s3 "transfer.create.end"
      (.ok ⟨tid, vid, name, key⟩, s4)

/-- Modelled from the spec: `TransferManager.accept(ctxt, transfer_id,
secret)` of `cinder/transfer/api.py` (absent from the sources).
Lookup failure gives TransferNotFound; then a secret mismatch gives
InvalidAuthKey with no mutation; then `transfer.accept.start` fires;
then volume-status drift away from "awaiting-transfer" gives
InvalidVolume with no state committed; on success quota is reserved
against the new project and released from the old, the volume is
re-parented to the caller and set "available", the record is deleted
and `transfer.accept.end` fires. -/
def accept (s : State) (ctxt : Ctxt) (tid : Nat) (secret : String) :
    Except TErr AcceptResult × State :=
  match findTransfer s tid with
  | none => (.error .transferNotFound, s)
  | some t =>
    if secret ≠ t.auth_key then (.error .invalidAuthKey, s)
    else
      match findVolume s t.volume_id with
      | none => (.error .volumeNotFound, s)
      | some v =>
        let s1 := notify s "transfer.accept.start"
        if v.status ≠ "awaiting-transfer" then (.error .invalidVolume, s1)
        else
          let s2 := quotaReserve s1
            ⟨ctxt.project_id, 1, (v.size : Int), v.volume_type_id⟩
          let s3 := quotaReserve s2
            ⟨v.project_id, -1, -(v.size : Int), v.volume_type_id⟩
          let s4 := updateVolume s3
            { v with project_id := ctxt.project_id,
                     user_id := ctxt.user_id,
                     status := "available" }
          let s5 := { s4 with
                        transfers := s4.transfers.filter (fun u => u.id ≠ tid) }
          let s6 := notify s5 "transfer.accept.end"
          (.ok ⟨tid, t.volume_id⟩, s6)

/-- Modelled from the spec: `TransferManager.delete(ctxt, transfer_id)`
of `cinder/transfer/api.py` (absent from the sources).  Deletes the
TransferRecord, restores the referenced volume to "available", and emits
a `transfer.delete.start` / `transfer.delete.end` pair. -/
def delete (s : State) (ctxt : Ctxt) (tid : Nat) :
    Except TErr Unit × State :=
  match findTransfer s tid with
  | none => (.error .transferNotFound, s)
  | some t =>
    let s1 := notify s "transfer.delete.start"
    let s2 := match findVolume s1 t.volume_id with
              | none => s1
              | some v => updateVolume s1 { v with status := "available" }
    let s3 := { s2 with
                  transfers := s2.transfers.filter (fun u => u.id ≠ tid) }
    (.ok (), notify s3 "transfer.delete.end")

/-- Modelled from the spec: `TransferManager.get(ctxt, transfer_id)`.
Visibility is scoped to the requesting project: the transfer is returned
only if its underlying volume's current owning project matches the
caller's; otherwise TransferNotFound. -/
def get (s : State) (ctxt : Ctxt) (tid : Nat) : Except TErr Transfer :=
  match findTransfer s tid with
  | none => .error .transferNotFound
  | some t =>
    match findVolume s t.volume_id with
    | none => .error .transferNotFound
    | some v =>
      if v.project_id = ctxt.project_id then .ok t
      else .error .transferNotFound

/-- Modelled from the spec: `TransferManager.get_all(ctxt)` — the
transfers whose underlying volume is owned by the caller's project. -/
def get_all (s : State) (ctxt : Ctxt) : List Transfer :=
  s.transfers.filter (fun t =>
    match findVolume s t.volume_id with
    | some v => v.project_id = ctxt.project_id
    | none => false)

/-- Modelled from the spec: `VolumeStore.destroy(id)` — removes the
volume and cascade-deletes any live transfer referencing it, with no
notification pair. -/
def destroyVolume (s : State) (vid : Nat) : State :=
  { s with volumes := s.volumes.filter (fun v => v.id ≠ vid),
           transfers := s.transfers.filter (fun t => t.volume_id ≠ vid) }

/-- The test fixture `cinder.tests.unit.utils.create_volume`: insert a
fresh volume owned by the context, in the given status. -/
def createVolume (s : State) (ctxt : Ctxt) (vid : Nat) (status : String)
    (vt : String) (size : Nat) : State :=
  { s with volumes := s.volumes ++
      [⟨vid, status, ctxt.project_id, ctxt.user_id, vt, size⟩] }

/-- Total reserved volume count across the whole system: the sum of the
volume-count deltas of every quota call made so far. -/
def totalReservedVolumes (s : State) : Int :=
  (s.quotaCalls.map (fun c => c.volumes)).sum

/-- Reserved volume count of one project: the sum of the volume-count
deltas of the quota calls made against it. -/
def reservedVolumes (s : State) (p : String) : Int :=
  ((s.quotaCalls.filter (fun c => c.project_id = p)).map
    (fun c => c.volumes)).sum

/-- The empty world: no volumes, no transfers, nothing emitted. -/
def emptyState : State := ⟨[], [], [], [], 0⟩

/-- A state holding exactly one volume in status "available" owned by
context `A`, as set up by `utils.create_volume` in the tests. -/
def ownerState (A : Ctxt) (vid : Nat) (vt : String) (size : Nat) : State :=
  createVolume emptyState A vid "available" vt size

/-- The state after the owner `A` has created a transfer on its
available volume (the first transfer id minted is `0`, with secret
`genAuthKey 0`). -/
def afterCreate (A : Ctxt) (vid : Nat) (name vt : String) (size : Nat) : State :=
  (create (ownerState A vid vt size) A vid name).2

/-- The created-transfer state after the volume's status has drifted
away from "awaiting-transfer" by a direct external write
(`volume.status = 'wrong'; volume.save()` in the test). -/
def driftState (A : Ctxt) (vid : Nat) (name vt : String) (size : Nat) : State :=
  updateVolume (afterCreate A vid name vt size)
    ⟨vid, "wrong", A.project_id, A.user_id, vt, size⟩

/-- The created-transfer state with a second available volume owned by
a second context `B`, as in the visibility test. -/
def twoProjectState (A B : Ctxt) (vid vid2 : Nat) (name vt : String)
    (size : Nat) : State :=
  createVolume (afterCreate A vid name vt size) B vid2 "available" vt size

end Transfer

namespace KeyMgr

/-- A symmetric key as built by `cinder.keymgr.key.SymmetricKey`:
an algorithm tag and the raw key bytes. -/
structure SymmetricKey where
  alg : String
  bytes : List Nat
deriving Repr, DecidableEq

/-- Key ids (`uuidutils.generate_uuid` in the source; modelled as
naturals). -/
abbrev KeyId := Nat

/-- The exceptions the mock key manager can raise:
`cinder.exception.NotAuthorized` and Python's builtin `KeyError`. -/
inductive KErr where
  | notAuthorized
  | keyError
deriving Repr, DecidableEq

/-- `MockKeyManager` of `cinder/tests/keymgr/mock_key_mgr.py`: stores
keys within a dictionary (`self.keys`), here an association list. -/
structure MockKeyManager where
  keys : List (KeyId × SymmetricKey)
deriving Repr, DecidableEq

/-- Dictionary lookup `self.keys[key_id]`. -/
def lookup (m : MockKeyManager) (kid : KeyId) : Option SymmetricKey :=
  (m.keys.find? (fun p => p.1 = kid)).map Prod.snd

/-- `MockKeyManager._generate_key_id`: draws fresh uuids until one is
not already in `self.keys`; modelled deterministically as one more than
the largest id in use (the postcondition — the returned id is not in the
dictionary — is the same). -/
def generate_key_id (m : MockKeyManager) : KeyId :=
  (m.keys.map Prod.fst).foldr max 0 + 1

/-- `MockKeyManager.store_key(ctxt, key)`: raises NotAuthorized if the
context is None, otherwise registers the key under a fresh id and
returns the id. -/
def store_key (m : MockKeyManager) (ctxt : Option Transfer.Ctxt)
    (k : SymmetricKey) : Except KErr KeyId × MockKeyManager :=
  match ctxt with
  | none => (.error .notAuthorized, m)
  | some _ =>
    let kid := generate_key_id m
    (.ok kid, ⟨m.keys ++ [(kid, k)]⟩)

/-- `MockKeyManager.create_key(ctxt, key_length=256)`: raises
NotAuthorized if the context is None, otherwise generates an AES key of
`key_length` bits (the random hex string from `utils.generate_password`
is modelled by the entropy oracle `rnd`, one byte per call) and stores
it via `store_key`. -/
def create_key (m : MockKeyManager) (ctxt : Option Transfer.Ctxt)
    (key_length : Nat) (rnd : Nat → Nat) :
    Except KErr KeyId × MockKeyManager :=
  match ctxt with
  | none => (.error .notAuthorized, m)
  | some _ =>
    store_key m ctxt ⟨"AES", (List.range (key_length / 8)).map rnd⟩

/-- `MockKeyManager.copy_key(ctxt, key_id)`: raises NotAuthorized if
the context is None; `self.keys[key_id]` raises KeyError if the id is
unknown; otherwise registers the same key under a fresh id. -/
def copy_key (m : MockKeyManager) (ctxt : Option Transfer.Ctxt)
    (kid : KeyId) : Except KErr KeyId × MockKeyManager :=
  match ctxt with
  | none => (.error .notAuthorized, m)
  | some _ =>
    match lookup m kid with
    | none => (.error .keyError, m)
    | some k =>
      let nid := generate_key_id m
      (.ok nid, ⟨m.keys ++ [(nid, k)]⟩)

/-- `MockKeyManager.get_key(ctxt, key_id)`: raises NotAuthorized if the
context is None; KeyError if the id is unknown; otherwise returns the
stored key. -/
def get_key (m : MockKeyManager) (ctxt : Option Transfer.Ctxt)
    (kid : KeyId) : Except KErr SymmetricKey × MockKeyManager :=
  match ctxt with
  | none => (.error .notAuthorized, m)
  | some _ =>
    match lookup m kid with
    | none => (.error .keyError, m)
    | some k => (.ok k, m)

/-- `MockKeyManager.delete_key(ctxt, key_id)`: raises NotAuthorized if
the context is None; `del self.keys[key_id]` raises KeyError if the id
is unknown; otherwise removes the entry. -/
def delete_key (m : MockKeyManager) (ctxt : Option Transfer.Ctxt)
    (kid : KeyId) : Except KErr Unit × MockKeyManager :=
  match ctxt with
  | none => (.error .notAuthorized, m)
  | some _ =>
    match lookup m kid with
    | none => (.error .keyError, m)
    | some _ => (.ok (), ⟨m.keys.filter (fun p => p.1 ≠ kid)⟩)

/-- One call to any of the five key manager operations, so that a
single statement can range over all of them. -/
inductive Op where
  | createKey (key_length : Nat) (rnd : Nat → Nat)
  | storeKey (k : SymmetricKey)
  | copyKey (kid : KeyId)
  | getKey (kid : KeyId)
  | deleteKey (kid : KeyId)

/-- The result value of a key manager operation (a key id, a key, or
nothing for `delete_key`). -/
inductive OpResult where
  | keyId (kid : KeyId)
  | key (k : SymmetricKey)
  | done
deriving Repr, DecidableEq

/-- Dispatch an operation on the mock key manager. -/
def runOp (m : MockKeyManager) (ctxt : Option Transfer.Ctxt) :
    Op → Except KErr OpResult × MockKeyManager
  | .createKey n rnd => (create_key m ctxt n rnd).map (Except.map .keyId) id
  | .storeKey k => (store_key m ctxt k).map (Except.map .keyId) id
  | .copyKey kid => (copy_key m ctxt kid).map (Except.map .keyId) id
  | .getKey kid => (get_key m ctxt kid).map (Except.map .key) id
  | .deleteKey kid => (delete_key m ctxt kid).map (Except.map (fun _ => .done)) id

end KeyMgr

namespace Transfer

/-- C5: For every volume in status "available", create succeeds: it
persists a new TransferRecord referencing the volume, sets the volume's
status to "awaiting-transfer", emits exactly the transfer.create.start
and transfer.create.end notification pair, and returns the transfer id,
volume id, display name, and plaintext secret. -/
theorem create_on_available_succeeds (A : Ctxt) (vid : Nat)
    (name vt : String) (size : Nat) :
    create (ownerState A vid vt size) A vid name =
      (.ok ⟨0, vid, name, genAuthKey 0⟩,
       { volumes := [⟨vid, "awaiting-transfer", A.project_id, A.user_id, vt, size⟩],
         transfers := [⟨0, vid, name, genAuthKey 0⟩],
         notifications := ["transfer.create.start", "transfer.create.end"],
         quotaCalls := [],
         counter := 1 }) ∧
    findTransfer (afterCreate A vid name vt size) 0 =
      some ⟨0, vid, name, genAuthKey 0⟩ ∧
    findVolume (afterCreate A vid name vt size) vid =
      some ⟨vid, "awaiting-transfer", A.project_id, A.user_id, vt, size⟩ := by
  refine ⟨?_, ?_, ?_⟩ <;>
    simp [create, afterCreate, ownerState, createVolume, emptyState,
          findVolume, findTransfer, updateVolume, notify]

/-- C6: For every volume whose status is anything other than
"available", create fails with InvalidVolume and leaves the whole state
(in particular the volume's status) unchanged; no TransferRecord is
created. -/
theorem create_on_unavailable_fails (s : State) (ctxt : Ctxt) (vid : Nat)
    (name : String) (v : Volume) (hv : findVolume s vid = some v)
    (hp : v.project_id = ctxt.project_id) (hs : v.status ≠ "available") :
    create s ctxt vid name = (.error .invalidVolume, s) := by
  simp [create, hv, hp, hs]

/-- Witness for C6 at the test's concrete input: a volume in status
"in-use". -/
theorem create_on_unavailable_fails_witness :
    (findVolume (createVolume emptyState ⟨"user_id", "project_id"⟩ 1 "in-use" "12345" 1) 1 =
       some ⟨1, "in-use", "project_id", "user_id", "12345", 1⟩) ∧
    create (createVolume emptyState ⟨"user_id", "project_id"⟩ 1 "in-use" "12345" 1)
        ⟨"user_id", "project_id"⟩ 1 "Description" =
      (.error .invalidVolume,
       createVolume emptyState ⟨"user_id", "project_id"⟩ 1 "in-use" "12345" 1) :=
  ⟨by decide,
   create_on_unavailable_fails _ ⟨"user_id", "project_id"⟩ 1 "Description"
     ⟨1, "in-use", "project_id", "user_id", "12345", 1⟩
     (by decide) (by decide) (by decide)⟩

/-- C1: For every transfer created on an available volume, a successful
accept presenting the correct transfer id and secret reassigns the
volume's project id and user id to the accepting caller's, sets the
volume status back to "available", deletes the TransferRecord, emits
the transfer.accept.start and transfer.accept.end notifications, and
returns a mapping of the transfer id and the volume id. -/
theorem accept_success_end_to_end (A B : Ctxt) (vid : Nat)
    (name vt : String) (size : Nat) :
    (create (ownerState A vid vt size) A vid name).1 =
      .ok ⟨0, vid, name, genAuthKey 0⟩ ∧
    accept (afterCreate A vid name vt size) B 0 (genAuthKey 0) =
      (.ok ⟨0, vid⟩,
       { volumes := [⟨vid, "available", B.project_id, B.user_id, vt, size⟩],
         transfers := [],
         notifications := (afterCreate A vid name vt size).notifications ++
           ["transfer.accept.start", "transfer.accept.end"],
         quotaCalls := [⟨B.project_id, 1, (size : Int), vt⟩,
                        ⟨A.project_id, -1, -(size : Int), vt⟩],
         counter := 1 }) ∧
    findTransfer (accept (afterCreate A vid name vt size) B 0 (genAuthKey 0)).2 0 =
      none := by
  refine ⟨?_, ?_, ?_⟩ <;>
    simp [create, accept, afterCreate, ownerState, createVolume, emptyState,
          findVolume, findTransfer, updateVolume, notify, quotaReserve]

/-- C2: On every successful accept, the quota ledger receives exactly a
reservation of +1 volume and +size gigabytes against the accepting
project and a release of -1 volume and -size gigabytes against the old
project, both with the volume's type-specific options, so the
system-wide reserved volume count is unchanged while the new project
gains exactly one reserved volume and the old project loses exactly
one. -/
theorem accept_quota_net_zero (A B : Ctxt) (vid : Nat) (name vt : String)
    (size : Nat) (hAB : A.project_id ≠ B.project_id) :
    ((accept (afterCreate A vid name vt size) B 0 (genAuthKey 0)).2.quotaCalls =
       (afterCreate A vid name vt size).quotaCalls ++
         [⟨B.project_id, 1, (size : Int), vt⟩,
          ⟨A.project_id, -1, -(size : Int), vt⟩]) ∧
    totalReservedVolumes (accept (afterCreate A vid name vt size) B 0 (genAuthKey 0)).2 =
      totalReservedVolumes (afterCreate A vid name vt size) ∧
    reservedVolumes (accept (afterCreate A vid name vt size) B 0 (genAuthKey 0)).2
        B.project_id =
      reservedVolumes (afterCreate A vid name vt size) B.project_id + 1 ∧
    reservedVolumes (accept (afterCreate A vid name vt size) B 0 (genAuthKey 0)).2
        A.project_id =
      reservedVolumes (afterCreate A vid name vt size) A.project_id - 1 := by
  refine ⟨?_, ?_, ?_, ?_⟩ <;>
    simp [create, accept, afterCreate, ownerState, createVolume, emptyState,
          findVolume, findTransfer, updateVolume, notify, quotaReserve,
          totalReservedVolumes, reservedVolumes, hAB, Ne.symm hAB]

/-- Witness for C2 at the test's concrete input. -/
theorem accept_quota_net_zero_witness :
    ("project_id" : String) ≠ "new_project_id" ∧
    totalReservedVolumes
        (accept (afterCreate ⟨"user_id", "project_id"⟩ 1 "Description" "12345" 1)
          ⟨"new_user_id", "new_project_id"⟩ 0 (genAuthKey 0)).2 =
      totalReservedVolumes (afterCreate ⟨"user_id", "project_id"⟩ 1 "Description" "12345" 1) :=
  ⟨by decide,
   (accept_quota_net_zero ⟨"user_id", "project_id"⟩ ⟨"new_user_id", "new_project_id"⟩
     1 "Description" "12345" 1 (by decide)).2.1⟩

end Transfer

namespace Transfer

/-- C3: accept discriminates its two authorization failures in a fixed
order: an unknown transfer id fails with TransferNotFound regardless of
the secret presented; an existing id with a mismatching secret fails
with InvalidAuthKey only after existence is confirmed, and in the
wrong-secret case the entire state (volume, quota, records) is left
unchanged. -/
theorem accept_auth_failure_order (s : State) (ctxt : Ctxt) (tid : Nat)
    (secret : String) :
    (findTransfer s tid = none →
      accept s ctxt tid secret = (.error .transferNotFound, s)) ∧
    (∀ t : Transfer, findTransfer s tid = some t → secret ≠ t.auth_key →
      accept s ctxt tid secret = (.error .invalidAuthKey, s)) := by
  constructor
  · intro h
    simp [accept, h]
  · intro t h hs
    simp [accept, h, hs]

/-- Witness for C3 at the test's concrete inputs: an unknown id `2`
with the correct secret, and the real id `0` with secret "wrong". -/
theorem accept_auth_failure_order_witness :
    (findTransfer (afterCreate ⟨"user_id", "project_id"⟩ 1 "Description" "12345" 1) 2 =
       none ∧
     accept (afterCreate ⟨"user_id", "project_id"⟩ 1 "Description" "12345" 1)
         ⟨"user_id", "project_id"⟩ 2 (genAuthKey 0) =
       (.error .transferNotFound,
        afterCreate ⟨"user_id", "project_id"⟩ 1 "Description" "12345" 1)) ∧
    (findTransfer (afterCreate ⟨"user_id", "project_id"⟩ 1 "Description" "12345" 1) 0 =
       some ⟨0, 1, "Description", genAuthKey 0⟩ ∧
     accept (afterCreate ⟨"user_id", "project_id"⟩ 1 "Description" "12345" 1)
         ⟨"user_id", "project_id"⟩ 0 "wrong" =
       (.error .invalidAuthKey,
        afterCreate ⟨"user_id", "project_id"⟩ 1 "Description" "12345" 1)) :=
  ⟨⟨by decide,
    (accept_auth_failure_order
      (afterCreate ⟨"user_id", "project_id"⟩ 1 "Description" "12345" 1)
      ⟨"user_id", "project_id"⟩ 2 (genAuthKey 0)).1 (by decide)⟩,
   ⟨by decide,
    (accept_auth_failure_order
      (afterCreate ⟨"user_id", "project_id"⟩ 1 "Description" "12345" 1)
      ⟨"user_id", "project_id"⟩ 0 "wrong").2
      ⟨0, 1, "Description", genAuthKey 0⟩ (by decide) (by decide)⟩⟩

/-- C4: If, after id and secret are validated, the volume's status has
drifted away from "awaiting-transfer", accept fails with InvalidVolume
and commits no state change beyond the already-fired
transfer.accept.start notification: the volume is not reassigned, the
TransferRecord remains live (the same transfer succeeds once the status
is restored), no quota call is made, and there is exactly one
transfer.accept.start with no matching transfer.accept.end. -/
theorem accept_on_drifted_volume_aborts (A B : Ctxt) (vid : Nat)
    (name vt : String) (size : Nat) :
    accept (driftState A vid name vt size) B 0 (genAuthKey 0) =
      (.error .invalidVolume,
       notify (driftState A vid name vt size) "transfer.accept.start") ∧
    findTransfer (notify (driftState A vid name vt size) "transfer.accept.start") 0 =
      some ⟨0, vid, name, genAuthKey 0⟩ ∧
    findVolume (notify (driftState A vid name vt size) "transfer.accept.start") vid =
      some ⟨vid, "wrong", A.project_id, A.user_id, vt, size⟩ ∧
    (notify (driftState A vid name vt size) "transfer.accept.start").quotaCalls =
      [] ∧
    (notify (driftState A vid name vt size) "transfer.accept.start").notifications =
      ["transfer.create.start", "transfer.create.end", "transfer.accept.start"] ∧
    (accept (updateVolume (notify (driftState A vid name vt size) "transfer.accept.start")
        ⟨vid, "awaiting-transfer", A.project_id, A.user_id, vt, size⟩)
      B 0 (genAuthKey 0)).1 = .ok ⟨0, vid⟩ := by
  refine ⟨?_, ?_, ?_, ?_, ?_, ?_⟩ <;>
    simp [create, accept, driftState, afterCreate, ownerState, createVolume,
          emptyState, findVolume, findTransfer, updateVolume, notify,
          quotaReserve]

/-- C7: get and get_all visibility is scoped to the caller's project:
a transfer on a volume owned by project A is returned by get and listed
by get_all under A's context, while under a different project B's
context get fails with TransferNotFound and get_all omits it. -/
theorem get_visibility_project_scoped (A B : Ctxt) (vid vid2 : Nat)
    (name vt : String) (size : Nat) (hAB : A.project_id ≠ B.project_id) :
    get (twoProjectState A B vid vid2 name vt size) A 0 =
      .ok ⟨0, vid, name, genAuthKey 0⟩ ∧
    get_all (twoProjectState A B vid vid2 name vt size) A =
      [⟨0, vid, name, genAuthKey 0⟩] ∧
    get (twoProjectState A B vid vid2 name vt size) B 0 =
      .error .transferNotFound ∧
    get_all (twoProjectState A B vid vid2 name vt size) B = [] := by
  refine ⟨?_, ?_, ?_, ?_⟩ <;>
    simp [get, get_all, twoProjectState, create, afterCreate, ownerState,
          createVolume, emptyState, findVolume, findTransfer, updateVolume,
          notify, hAB, Ne.symm hAB]

/-- Witness for C7 at the test's concrete input: projects "project_id"
and "new_project_id". -/
theorem get_visibility_project_scoped_witness :
    ("project_id" : String) ≠ "new_project_id" ∧
    get (twoProjectState ⟨"user_id", "project_id"⟩ ⟨"new_user_id", "new_project_id"⟩
        1 2 "Description" "12345" 1) ⟨"new_user_id", "new_project_id"⟩ 0 =
      .error .transferNotFound :=
  ⟨by decide,
   (get_visibility_project_scoped ⟨"user_id", "project_id"⟩
     ⟨"new_user_id", "new_project_id"⟩ 1 2 "Description" "12345" 1
     (by decide)).2.2.1⟩

/-- C8: create followed by delete is a round trip on volume state: after
create sets the volume to "awaiting-transfer", delete of the returned
transfer id removes the TransferRecord and restores the volume store to
exactly its original contents (status "available"), emitting the
transfer.delete.start and transfer.delete.end pair after the create
pair. -/
theorem create_delete_round_trip (A : Ctxt) (vid : Nat) (name vt : String)
    (size : Nat) :
    delete (afterCreate A vid name vt size) A 0 =
      (.ok (),
       { volumes := (ownerState A vid vt size).volumes,
         transfers := [],
         notifications := ["transfer.create.start", "transfer.create.end",
                           "transfer.delete.start", "transfer.delete.end"],
         quotaCalls := [],
         counter := 1 }) := by
  simp [delete, create, afterCreate, ownerState, createVolume, emptyState,
        findVolume, findTransfer, updateVolume, notify]

/-- C9: destroying a volume cascades to its live transfer: after the
volume is destroyed, get of the transfer id fails with TransferNotFound,
the record is gone, and no delete notification pair is emitted by the
cascade. -/
theorem volume_destroy_cascades (A : Ctxt) (vid : Nat) (name vt : String)
    (size : Nat) :
    get (destroyVolume (afterCreate A vid name vt size) vid) A 0 =
      .error .transferNotFound ∧
    findTransfer (destroyVolume (afterCreate A vid name vt size) vid) 0 =
      none ∧
    (destroyVolume (afterCreate A vid name vt size) vid).notifications =
      (afterCreate A vid name vt size).notifications := by
  refine ⟨?_, ?_, ?_⟩ <;>
    simp [get, destroyVolume, create, afterCreate, ownerState, createVolume,
          emptyState, findVolume, findTransfer, updateVolume, notify]

end Transfer

namespace KeyMgr

/-- C10: every MockKeyManager operation (create_key, store_key,
copy_key, get_key, delete_key) raises NotAuthorized if and only if the
caller context is None; the key store is not modified when
NotAuthorized is raised; and with a non-None context get_key and
delete_key with an unknown key id raise KeyError (not NotAuthorized)
without modifying the store. -/
theorem mock_key_mgr_not_authorized (m : MockKeyManager)
    (ctxt : Option Transfer.Ctxt) :
    (∀ op : Op, ((runOp m ctxt op).1 = .error .notAuthorized ↔ ctxt = none) ∧
      (ctxt = none → (runOp m ctxt op).2 = m)) ∧
    (∀ kid : KeyId, ctxt ≠ none → lookup m kid = none →
      runOp m ctxt (.getKey kid) = (.error .keyError, m) ∧
      runOp m ctxt (.deleteKey kid) = (.error .keyError, m)) := by
  constructor
  · intro op
    cases ctxt with
    | none =>
      cases op <;>
        simp [runOp, create_key, store_key, copy_key, get_key, delete_key, Except.map]
    | some c =>
      cases op with
      | createKey n rnd => simp [runOp, create_key, store_key, Except.map]
      | storeKey k => simp [runOp, store_key, Except.map]
      | copyKey kid =>
        cases h : lookup m kid <;> simp [runOp, copy_key, h, Except.map]
      | getKey kid =>
        cases h : lookup m kid <;> simp [runOp, get_key, h, Except.map]
      | deleteKey kid =>
        cases h : lookup m kid <;> simp [runOp, delete_key, h, Except.map]
  · intro kid hc hl
    cases ctxt with
    | none => exact absurd rfl hc
    | some c => exact ⟨by simp [runOp, get_key, hl, Except.map], by simp [runOp, delete_key, hl, Except.map]⟩

/-- Witness for C10: on the empty store, store_key with context None is
NotAuthorized, and get_key of the unknown id 5 with a non-None context
is a KeyError leaving the store unchanged. -/
theorem mock_key_mgr_not_authorized_witness :
    (runOp ⟨[]⟩ none (.storeKey ⟨"AES", [0]⟩)).1 = .error .notAuthorized ∧
    (some ⟨"user_id", "project_id"⟩ : Option Transfer.Ctxt) ≠ none ∧
    lookup ⟨[]⟩ 5 = none ∧
    runOp ⟨[]⟩ (some ⟨"user_id", "project_id"⟩) (.getKey 5) =
      (.error .keyError, ⟨[]⟩) :=
  ⟨((mock_key_mgr_not_authorized ⟨[]⟩ none).1 (.storeKey ⟨"AES", [0]⟩)).1.mpr rfl,
   by decide, by decide,
   ((mock_key_mgr_not_authorized ⟨[]⟩ (some ⟨"user_id", "project_id"⟩)).2 5
     (by decide) (by decide)).1⟩

end KeyMgr
